import Mathlib

/-!
Verification of the vision-adapter module (`vision_analysis.py`).

The module wraps a remote multimodal generative model behind three
operations (`analyze_images_with_gpt4_vision`, `detect_important_pages`,
`get_important_panels`).  The remote call itself is external
nondeterminism, so each operation is parameterised by the behaviour of
the model invocation (the assembled prompt contents mapped to either a
returned text or a raised exception).  Everything downstream of the
remote call — credential check, prompt assembly, JSON parsing with the
greedy brace-extraction fallback, field extraction, and the divergent
error policies — is embedded executably below.
-/

/-- Python exceptions that the module can raise or catch: `ValueError`
(missing credential), `json.JSONDecodeError`, `AttributeError`
(calling `.get` on a non-dict), and any exception coming out of the
remote model invocation. -/
inductive PyErr where
  | valueError (msg : String)
  | jsonDecodeError
  | attributeError
  | modelError (msg : String)
deriving DecidableEq, Repr

/-- JSON values as produced by Python `json.loads`.  Numbers keep their
source lexeme (the claims never compare numeric values, only structure).
Objects keep their fields in source order; lookup takes the last
occurrence of a key, matching Python dict construction. -/
inductive JValue where
  | null
  | boolean (b : Bool)
  | number (lexeme : String)
  | str (s : String)
  | arr (elems : List JValue)
  | obj (fields : List (String × JValue))

/-- The opening-brace character, kept out of character-literal syntax. -/
def lbrace : Char := Char.ofNat 123

/-- The closing-brace character. -/
def rbrace : Char := Char.ofNat 125

/-- The double-quote character. -/
def dquote : Char := Char.ofNat 34

/-- The backslash character. -/
def bslash : Char := Char.ofNat 92

/-- JSON insignificant whitespace (space, tab, newline, carriage return). -/
def isJsonWs (c : Char) : Bool :=
  c = ' ' || c = Char.ofNat 9 || c = Char.ofNat 10 || c = Char.ofNat 13

def skipWs : List Char → List Char
  | [] => []
  | c :: cs => if isJsonWs c then skipWs cs else c :: cs

def isDigit (c : Char) : Bool := '0' ≤ c && c ≤ '9'

/-- Longest leading run of decimal digits, and the rest. -/
def takeDigits : List Char → List Char × List Char
  | [] => ([], [])
  | c :: cs =>
    if isDigit c then
      let (d, r) := takeDigits cs
      (c :: d, r)
    else ([], c :: cs)

/-- Value of one hex digit, as used by `\uXXXX` string escapes. -/
def hexVal (c : Char) : Option Nat :=
  if '0' ≤ c && c ≤ '9' then some (c.toNat - 48)
  else if 'a' ≤ c && c ≤ 'f' then some (c.toNat - 87)
  else if 'A' ≤ c && c ≤ 'F' then some (c.toNat - 55)
  else none

/-- Single-character JSON string escapes. -/
def escChar (c : Char) : Option Char :=
  if c = dquote then some dquote
  else if c = bslash then some bslash
  else if c = '/' then some '/'
  else if c = 'b' then some (Char.ofNat 8)
  else if c = 'f' then some (Char.ofNat 12)
  else if c = 'n' then some (Char.ofNat 10)
  else if c = 'r' then some (Char.ofNat 13)
  else if c = 't' then some (Char.ofNat 9)
  else none

/-- Scan a JSON string body (the opening quote already consumed),
returning the decoded string and the input after the closing quote.
Fuel bounds the recursion; one character is consumed per step, so any
fuel above the input length is enough.  Unescaped control characters
are rejected (Python strict mode); surrogate-pair recombination of
`\uXXXX` escapes is not modelled (no claim involves it). -/
def scanString : Nat → List Char → Option (String × List Char)
  | 0, _ => none
  | _, [] => none
  | fuel + 1, c :: cs =>
    if c = dquote then some ("", cs)
    else if c = bslash then
      match cs with
      | [] => none
      | e :: cs2 =>
        if e = 'u' then
          match cs2 with
          | h1 :: h2 :: h3 :: h4 :: cs3 =>
            match hexVal h1, hexVal h2, hexVal h3, hexVal h4 with
            | some a, some b, some c2, some d =>
              match scanString fuel cs3 with
              | some (s, r) =>
                some (String.mk (Char.ofNat (a * 4096 + b * 256 + c2 * 16 + d) :: s.data), r)
              | none => none
            | _, _, _, _ => none
          | _ => none
        else
          match escChar e with
          | some ec =>
            match scanString fuel cs2 with
            | some (s, r) => some (String.mk (ec :: s.data), r)
            | none => none
          | none => none
    else if c.toNat < 32 then none
    else
      match scanString fuel cs with
      | some (s, r) => some (String.mk (c :: s.data), r)
      | none => none

/-- Optional fraction part `.digits` of a number lexeme. -/
def scanFrac : List Char → List Char × List Char
  | '.' :: c :: r =>
    if isDigit c then
      let (d, rest) := takeDigits r
      ('.' :: c :: d, rest)
    else ([], '.' :: c :: r)
  | cs => ([], cs)

/-- Optional exponent part `[eE][+-]?digits` of a number lexeme. -/
def scanExp (cs : List Char) : List Char × List Char :=
  match cs with
  | e :: rest =>
    if e = 'e' || e = 'E' then
      let (sgn, rest1) : List Char × List Char :=
        match rest with
        | s :: r => if s = '+' || s = '-' then ([s], r) else ([], s :: r)
        | [] => ([], [])
      match rest1 with
      | c :: r =>
        if isDigit c then
          let (d, rest2) := takeDigits r
          (e :: (sgn ++ c :: d), rest2)
        else ([], cs)
      | [] => ([], cs)
    else ([], cs)
  | [] => ([], cs)

/-- Scan a JSON number lexeme `-?(0|[1-9]\d*)(\.\d+)?([eE][+-]?\d+)?`,
the regular expression Python `json` uses, returning the maximal match
as Python `re.match` does. -/
def scanNumber (cs : List Char) : Option (List Char × List Char) :=
  let (sign, cs1) : List Char × List Char :=
    match cs with
    | '-' :: r => (['-'], r)
    | _ => ([], cs)
  match cs1 with
  | c :: r =>
    if c = '0' then
      let (f, r1) := scanFrac r
      let (e, r2) := scanExp r1
      some (sign ++ '0' :: f ++ e, r2)
    else if isDigit c then
      let (d, r0) := takeDigits r
      let (f, r1) := scanFrac r0
      let (e, r2) := scanExp r1
      some (sign ++ c :: d ++ f ++ e, r2)
    else none
  | [] => none

/-- Drop an expected literal tail (e.g. `ull` after `n`). -/
def stripLit : List Char → List Char → Option (List Char)
  | [], cs => some cs
  | p :: ps, c :: cs => if c = p then stripLit ps cs else none
  | _ :: _, [] => none

mutual

/-- Recursive-descent JSON value parser, the embedding of Python
`json.loads`'s grammar (including its `NaN`/`Infinity`/`-Infinity`
extensions).  Fuel decreases on every recursive call; each call chain
consumes input, so the generous fuel supplied by `json_loads` below
never runs out on real input. -/
def parseValue : Nat → List Char → Option (JValue × List Char)
  | 0, _ => none
  | fuel + 1, cs =>
    match skipWs cs with
    | [] => none
    | c :: rest =>
      if c = dquote then
        match scanString (rest.length + 1) rest with
        | some (s, r) => some (.str s, r)
        | none => none
      else if c = lbrace then
        match skipWs rest with
        | d :: r2 => if d = rbrace then some (.obj [], r2) else parseMembers fuel (d :: r2) []
        | [] => none
      else if c = '[' then
        match skipWs rest with
        | ']' :: r2 => some (.arr [], r2)
        | r2 => parseElems fuel r2 []
      else if c = 'n' then (stripLit ['u', 'l', 'l'] rest).map (fun r => (.null, r))
      else if c = 't' then (stripLit ['r', 'u', 'e'] rest).map (fun r => (.boolean true, r))
      else if c = 'f' then (stripLit ['a', 'l', 's', 'e'] rest).map (fun r => (.boolean false, r))
      else if c = 'N' then (stripLit ['a', 'N'] rest).map (fun r => (.number "NaN", r))
      else if c = 'I' then
        (stripLit ['n', 'f', 'i', 'n', 'i', 't', 'y'] rest).map (fun r => (.number "Infinity", r))
      else if c = '-' && (stripLit ['I', 'n', 'f', 'i', 'n', 'i', 't', 'y'] rest).isSome then
        (stripLit ['I', 'n', 'f', 'i', 'n', 'i', 't', 'y'] rest).map
          (fun r => (.number "-Infinity", r))
      else if c = '-' || isDigit c then
        match scanNumber (c :: rest) with
        | some (lex, r) => some (.number (String.mk lex), r)
        | none => none
      else none

/-- Members of a JSON object after the opening brace (first key is next,
whitespace already skipped). -/
def parseMembers : Nat → List Char → List (String × JValue) → Option (JValue × List Char)
  | 0, _, _ => none
  | fuel + 1, cs, acc =>
    match cs with
    | [] => none
    | c :: rest =>
      if c = dquote then
        match scanString (rest.length + 1) rest with
        | some (key, r) =>
          match skipWs r with
          | ':' :: r2 =>
            match parseValue fuel r2 with
            | some (v, r3) =>
              match skipWs r3 with
              | ',' :: r4 => parseMembers fuel (skipWs r4) (acc ++ [(key, v)])
              | d :: r4 => if d = rbrace then some (.obj (acc ++ [(key, v)]), r4) else none
              | [] => none
            | none => none
          | _ => none
        | none => none
      else none

/-- Elements of a JSON array after the opening bracket (first element is
next, the empty-array case already handled). -/
def parseElems : Nat → List Char → List JValue → Option (JValue × List Char)
  | 0, _, _ => none
  | fuel + 1, cs, acc =>
    match parseValue fuel cs with
    | some (v, r) =>
      match skipWs r with
      | ',' :: r2 => parseElems fuel r2 (acc ++ [v])
      | ']' :: r2 => some (.arr (acc ++ [v]), r2)
      | _ => none
    | none => none

end

/-- Python `json.loads`: parse one JSON value and require only
whitespace to remain; `none` is the `json.JSONDecodeError` outcome.
The fuel bounds the depth of the recursive-descent call chain, which
consumes at least one input character every two calls. -/
def json_loads (s : String) : Option JValue :=
  match parseValue (s.length * 4 + 16) s.data with
  | some (v, rest) => if (skipWs rest).isEmpty then some v else none
  | none => none

/-- Index of the last occurrence of a character. -/
def lastIdxOf (cs : List Char) (c : Char) : Option Nat :=
  match cs.reverse.findIdx? (· = c) with
  | some k => some (cs.length - 1 - k)
  | none => none

/-- The embedding of `re.search(r'\x7b.*\x7d', text, re.DOTALL)` used by
both JSON-mode operations: a leftmost greedy match runs from the first
opening brace to the last closing brace of the whole text (the `.*` is
greedy and, under DOTALL, crosses newlines), provided that closing
brace comes after the opening one; otherwise there is no match. -/
def braceExtract (s : String) : Option String :=
  let cs := s.data
  match cs.findIdx? (· = lbrace), lastIdxOf cs rbrace with
  | some i, some j =>
    if i < j then some (String.mk ((cs.drop i).take (j + 1 - i))) else none
  | _, _ => none

/-- Last-wins association lookup, matching how Python dict construction
treats duplicate keys in a JSON object. -/
def dictGet (fields : List (String × JValue)) (key : String) : Option JValue :=
  fields.foldl (fun acc p => if p.1 = key then some p.2 else acc) none

/-- Python `parsed_response.get(key, [])`: on a dict, the value of the
key or the empty-list default; on any non-dict value (list, str, int,
float, bool, None) `.get` does not exist and an `AttributeError` is
raised. -/
def py_get_list (v : JValue) (key : String) : Except PyErr JValue :=
  match v with
  | .obj fields => .ok ((dictGet fields key).getD (.arr []))
  | _ => .error .attributeError

/-- Whether a JSON value is an object (a Python dict after `json.loads`). -/
def JValue.isObj : JValue → Bool
  | .obj _ => true
  | _ => false

/-- The process environment as read by the module: `GOOGLE_API_KEY` and
the optional `GEMINI_MODEL_NAME` override. -/
structure Env where
  google_api_key : Option String
  gemini_model_name : Option String

def apiKeyMsg : String :=
  "GOOGLE_API_KEY environment variable is not set. Please add it to your .env file."

/-- `get_gemini_model`: fails with a `ValueError` when the credential is
unset (or empty, since Python tests `not api_key`); otherwise configures
the client and returns the model named by `GEMINI_MODEL_NAME`, default
`gemini-1.5-flash`.  The model's remote behaviour itself is a parameter
of each operation. -/
def get_gemini_model (env : Env) : Except PyErr String :=
  match env.google_api_key with
  | none => .error (.valueError apiKeyMsg)
  | some k =>
    if k = "" then .error (.valueError apiKeyMsg)
    else .ok (env.gemini_model_name.getD "gemini-1.5-flash")

/-- An in-memory decoded image.  Pixel decoding is outside the module's
scope (an opaque PIL call), so the image is tagged with the base64
source it was decoded from. -/
structure PILImage where
  data : String
deriving DecidableEq

def base64_to_pil (base64_str : String) : PILImage := ⟨base64_str⟩

/-- One part of the multimodal prompt bundle sent to the model: a text
fragment or a decoded image. -/
inductive Content where
  | text (s : String)
  | image (img : PILImage)
deriving DecidableEq

/-- The behaviour of one remote `model.generate_content(...)` call
followed by reading `.text`: either the returned text or a raised
exception. -/
abbrev ModelBehavior := List Content → Except PyErr String

structure MockMessage where
  content : String
deriving DecidableEq

structure MockChoice where
  message : MockMessage
deriving DecidableEq

structure MockUsage where
  total_tokens : Nat
deriving DecidableEq

/-- The legacy OpenAI-completion shape mocked by
`analyze_images_with_gpt4_vision`. -/
structure MockResponse where
  choices : List MockChoice
  usage : MockUsage
deriving DecidableEq

/-- The dict returned by the two JSON-mode operations: exactly the keys
`total_tokens` and `parsed_response`. -/
structure JsonModeResult where
  total_tokens : Nat
  parsed_response : JValue

/-- `analyze_images_with_gpt4_vision`: credential check, prompt
assembly in fixed order, remote call, and wrapping of the returned text
in the legacy shape with `total_tokens` fixed at 0.  The second
component of the result records whether the remote model was invoked.
The unused `client` and `detail` parameters of the Python signature are
kept. -/
def analyze_images_with_gpt4_vision (env : Env) (model : ModelBehavior)
    (character_profiles : List String) (pages : List String) (client : Unit)
    (prompt : String) (instructions : String) (detail : String) :
    Except PyErr MockResponse × Bool :=
  match get_gemini_model env with
  | .error e => (.error e, false)
  | .ok _ =>
    let contents : List Content :=
      [Content.text ("System Instructions: " ++ instructions ++ "\n\n"),
       Content.text "Here are some character profile pages, for your reference:"]
      ++ character_profiles.map (fun img => Content.image (base64_to_pil img))
      ++ [Content.text ("\nPrompt: " ++ prompt ++ "\n")]
      ++ pages.map (fun img => Content.image (base64_to_pil img))
    match model contents with
    | .error e => (.error e, true)
    | .ok text => (.ok ⟨[⟨⟨text⟩⟩], ⟨0⟩⟩, true)

/-- `detect_important_pages`: credential check, prompt assembly, JSON-mode
remote call, strict `json.loads`, greedy brace-extraction fallback on
parse failure — re-raising the decode error when no brace-delimited
substring exists or when the extracted substring itself fails to parse —
then extraction of `important_pages` with `[]` default.  The Bool
records whether the remote model was invoked. -/
def detect_important_pages (env : Env) (model : ModelBehavior)
    (profile_reference : List String) (chapter_reference : List String)
    (pages : List String) (client : Unit)
    (prompt : String) (instructions : String) (detail : String) :
    Except PyErr JsonModeResult × Bool :=
  match get_gemini_model env with
  | .error e => (.error e, false)
  | .ok _ =>
    let contents : List Content :=
      [Content.text ("System Instructions: " ++ instructions ++ "\n\n"),
       Content.text "Here are some character profile pages, for your reference:"]
      ++ profile_reference.map (fun img => Content.image (base64_to_pil img))
      ++ [Content.text "\nHere are some chapter start pages, for your reference:"]
      ++ chapter_reference.map (fun img => Content.image (base64_to_pil img))
      ++ [Content.text ("\nPrompt: " ++ prompt ++ "\n")]
      ++ pages.map (fun img => Content.image (base64_to_pil img))
    match model contents with
    | .error e => (.error e, true)
    | .ok response_text =>
      let parsed : Except PyErr JValue :=
        match json_loads response_text with
        | some v => .ok v
        | none =>
          match braceExtract response_text with
          | some sub =>
            match json_loads sub with
            | some v => .ok v
            | none => .error .jsonDecodeError
          | none => .error .jsonDecodeError
      match parsed with
      | .error e => (.error e, true)
      | .ok v =>
        match py_get_list v "important_pages" with
        | .error e => (.error e, true)
        | .ok pr => (.ok ⟨0, pr⟩, true)

/-- `get_important_panels`: credential check (outside the try block, so
configuration errors still propagate), prompt assembly, JSON-mode remote
call with every invocation exception caught and turned into the empty
result, then the same strict-parse / greedy-fallback pipeline except
that a fallback with no brace match substitutes the literal
`\x7b"important_panels": []\x7d` object instead of re-raising; a decode
failure of the extracted substring is outside both except clauses and
propagates.  Finally extracts `important_panels` with `[]` default. -/
def get_important_panels (env : Env) (model : ModelBehavior)
    (profile_reference : List String) (panels : List String) (client : Unit)
    (prompt : String) (instructions : String) (detail : String) :
    Except PyErr JsonModeResult × Bool :=
  match get_gemini_model env with
  | .error e => (.error e, false)
  | .ok _ =>
    let contents : List Content :=
      [Content.text ("System Instructions: " ++ instructions ++ "\n\n"),
       Content.text "Here are some character profile pages, for your reference:"]
      ++ profile_reference.map (fun img => Content.image (base64_to_pil img))
      ++ [Content.text ("\nPrompt: " ++ prompt ++ "\n")]
      ++ panels.map (fun img => Content.image (base64_to_pil img))
    match model contents with
    | .error _ => (.ok ⟨0, .arr []⟩, true)
    | .ok response_text =>
      let parsed : Except PyErr JValue :=
        match json_loads response_text with
        | some v => .ok v
        | none =>
          match braceExtract response_text with
          | some sub =>
            match json_loads sub with
            | some v => .ok v
            | none => .error .jsonDecodeError
          | none => .ok (.obj [("important_panels", .arr [])])
      match parsed with
      | .error e => (.error e, true)
      | .ok v =>
        match py_get_list v "important_panels" with
        | .error e => (.error e, true)
        | .ok pr => (.ok ⟨0, pr⟩, true)

/-- A configured environment used by the concrete witnesses and
counterexamples. -/
def env0 : Env := ⟨some "test-key", none⟩

/-- C1: for every exception raised by the remote model invocation,
`get_important_panels` catches it and returns the empty-result shape
(`total_tokens = 0`, `parsed_response = []`) without raising, while
`analyze_images_with_gpt4_vision` and `detect_important_pages`
propagate the same exception unchanged to the caller. -/
theorem c1_remote_exception_policy (env : Env) (name : String) (e : PyErr)
    (model : ModelBehavior)
    (character_profiles profile_reference chapter_reference pages panels : List String)
    (client : Unit) (prompt instructions detail : String)
    (henv : get_gemini_model env = .ok name)
    (hmodel : ∀ cs, model cs = .error e) :
    (get_important_panels env model profile_reference panels client
        prompt instructions detail).1 = .ok ⟨0, .arr []⟩ ∧
    (analyze_images_with_gpt4_vision env model character_profiles pages client
        prompt instructions detail).1 = .error e ∧
    (detect_important_pages env model profile_reference chapter_reference pages client
        prompt instructions detail).1 = .error e := by
  refine ⟨?_, ?_, ?_⟩ <;>
    simp only [get_important_panels, analyze_images_with_gpt4_vision,
      detect_important_pages, henv, hmodel]

/-- Closed instance of C1 at a concrete raised exception. -/
theorem c1_remote_exception_policy_witness :
    (get_important_panels env0 (fun _ => .error (.modelError "boom")) [] [] ()
        "" "" "low").1 = .ok ⟨0, .arr []⟩ ∧
    (analyze_images_with_gpt4_vision env0 (fun _ => .error (.modelError "boom")) [] [] ()
        "" "" "low").1 = .error (.modelError "boom") ∧
    (detect_important_pages env0 (fun _ => .error (.modelError "boom")) [] [] [] ()
        "" "" "low").1 = .error (.modelError "boom") :=
  c1_remote_exception_policy env0 "gemini-1.5-flash" (.modelError "boom") _
    [] [] [] [] [] () "" "" "low" rfl (fun _ => rfl)

/-- C4: for every text T returned by the model, the result of
`analyze_images_with_gpt4_vision` has a `choices` sequence of length
exactly 1, `choices[0].message.content` equal to T, and
`usage.total_tokens` equal to 0. -/
theorem c4_legacy_shape_fidelity (env : Env) (name : String)
    (model : ModelBehavior) (character_profiles pages : List String)
    (client : Unit) (prompt instructions detail t : String)
    (henv : get_gemini_model env = .ok name)
    (hmodel : ∀ cs, model cs = .ok t) :
    ∃ r, (analyze_images_with_gpt4_vision env model character_profiles pages client
        prompt instructions detail).1 = .ok r ∧
      ∃ c, r.choices = [c] ∧ c.message.content = t ∧ r.usage.total_tokens = 0 := by
  refine ⟨⟨[⟨⟨t⟩⟩], ⟨0⟩⟩, ?_, ⟨⟨t⟩⟩, rfl, rfl, rfl⟩
  simp only [analyze_images_with_gpt4_vision, henv, hmodel]

/-- Closed instance of C4 at a concrete returned text. -/
theorem c4_legacy_shape_fidelity_witness :
    ∃ r, (analyze_images_with_gpt4_vision env0 (fun _ => .ok "some narration") [] [] ()
        "" "" "low").1 = .ok r ∧
      ∃ c, r.choices = [c] ∧ c.message.content = "some narration" ∧
        r.usage.total_tokens = 0 :=
  c4_legacy_shape_fidelity env0 "gemini-1.5-flash" _ [] [] () "" "" "low"
    "some narration" rfl (fun _ => rfl)

/-- C5: calling any of the three operations with the credential
environment variable unset raises the configuration `ValueError` before
any network call is attempted; the invocation flag stays `false`, so no
remote invocation occurs, whatever the model behaviour. -/
theorem c5_missing_credential (env : Env) (model : ModelBehavior)
    (character_profiles profile_reference chapter_reference pages panels : List String)
    (client : Unit) (prompt instructions detail : String)
    (h : env.google_api_key = none) :
    analyze_images_with_gpt4_vision env model character_profiles pages client
        prompt instructions detail = (.error (.valueError apiKeyMsg), false) ∧
    detect_important_pages env model profile_reference chapter_reference pages client
        prompt instructions detail = (.error (.valueError apiKeyMsg), false) ∧
    get_important_panels env model profile_reference panels client
        prompt instructions detail = (.error (.valueError apiKeyMsg), false) := by
  have henv : get_gemini_model env = .error (.valueError apiKeyMsg) := by
    simp only [get_gemini_model, h]
  refine ⟨?_, ?_, ?_⟩ <;>
    simp only [analyze_images_with_gpt4_vision, detect_important_pages,
      get_important_panels, henv]

/-- Closed instance of C5 on an environment with no credential. -/
theorem c5_missing_credential_witness :
    analyze_images_with_gpt4_vision ⟨none, none⟩ (fun _ => .ok "t") [] [] ()
        "" "" "low" = (.error (.valueError apiKeyMsg), false) ∧
    detect_important_pages ⟨none, none⟩ (fun _ => .ok "t") [] [] [] ()
        "" "" "low" = (.error (.valueError apiKeyMsg), false) ∧
    get_important_panels ⟨none, none⟩ (fun _ => .ok "t") [] [] ()
        "" "" "low" = (.error (.valueError apiKeyMsg), false) :=
  c5_missing_credential ⟨none, none⟩ _ [] [] [] [] [] () "" "" "low" rfl

/-- C2: for every model response text that is not valid JSON and
contains no brace-delimited substring, `detect_important_pages` raises
the JSON parse error to the caller, whereas `get_important_panels` on
the same text returns the empty-result shape (`total_tokens = 0`,
`parsed_response = []`) without raising. -/
theorem c2_unrecoverable_malformed_json (env : Env) (name : String)
    (model : ModelBehavior)
    (profile_reference chapter_reference pages panels : List String)
    (client : Unit) (prompt instructions detail t : String)
    (henv : get_gemini_model env = .ok name)
    (hmodel : ∀ cs, model cs = .ok t)
    (hjson : json_loads t = none) (hbrace : braceExtract t = none) :
    (detect_important_pages env model profile_reference chapter_reference pages client
        prompt instructions detail).1 = .error .jsonDecodeError ∧
    (get_important_panels env model profile_reference panels client
        prompt instructions detail).1 = .ok ⟨0, .arr []⟩ := by
  constructor
  · simp only [detect_important_pages, henv, hmodel, hjson, hbrace]
  · simp only [get_important_panels, henv, hmodel, hjson, hbrace]
    rfl

/-- Closed instance of C2 on the non-JSON, brace-free text `hello`. -/
theorem c2_unrecoverable_malformed_json_witness :
    (detect_important_pages env0 (fun _ => .ok "hello") [] [] [] ()
        "" "" "low").1 = .error .jsonDecodeError ∧
    (get_important_panels env0 (fun _ => .ok "hello") [] [] ()
        "" "" "low").1 = .ok ⟨0, .arr []⟩ :=
  c2_unrecoverable_malformed_json env0 "gemini-1.5-flash" _ [] [] [] [] ()
    "" "" "low" "hello" rfl (fun _ => rfl) rfl rfl

/-- C3 as stated is false: on the response text `\x7ba\x7d`, strict
parsing fails, the brace-extraction fallback matches the whole text,
re-parsing the extracted substring fails again, and that second
`json.loads` call sits outside every except clause — so
`get_important_panels` propagates the JSON parse error instead of
returning an empty result. -/
theorem c3_counterexample :
    (get_important_panels env0 (fun _ => .ok "\x7ba\x7d") [] [] ()
        "" "" "low").1 = .error .jsonDecodeError := rfl

/-- C3 amended: `get_important_panels` propagates a JSON parse error
only through a failed re-parse of an extracted brace-delimited
substring.  If the strict parse fails and no brace-delimited substring
exists, it returns the empty result object rather than raising; if the
extracted substring itself fails to parse, the parse error is raised to
the caller. -/
theorem c3_parse_error_policy (env : Env) (name : String)
    (model : ModelBehavior) (profile_reference panels : List String)
    (client : Unit) (prompt instructions detail t : String)
    (henv : get_gemini_model env = .ok name)
    (hmodel : ∀ cs, model cs = .ok t)
    (hjson : json_loads t = none) :
    (braceExtract t = none →
      (get_important_panels env model profile_reference panels client
          prompt instructions detail).1 = .ok ⟨0, .arr []⟩) ∧
    (∀ sub, braceExtract t = some sub → json_loads sub = none →
      (get_important_panels env model profile_reference panels client
          prompt instructions detail).1 = .error .jsonDecodeError) := by
  constructor
  · intro hbrace
    simp only [get_important_panels, henv, hmodel, hjson, hbrace]
    rfl
  · intro sub hbrace hsub
    simp only [get_important_panels, henv, hmodel, hjson, hbrace, hsub]

/-- Closed instances of amended C3: one brace-free text returning the
empty result, one text whose extracted substring fails to re-parse and
raises. -/
theorem c3_parse_error_policy_witness :
    (get_important_panels env0 (fun _ => .ok "hi there") [] [] ()
        "" "" "low").1 = .ok ⟨0, .arr []⟩ ∧
    (get_important_panels env0 (fun _ => .ok "\x7bz\x7d") [] [] ()
        "" "" "low").1 = .error .jsonDecodeError :=
  ⟨(c3_parse_error_policy env0 "gemini-1.5-flash" _ [] [] () "" "" "low"
      "hi there" rfl (fun _ => rfl) rfl).1 rfl,
   (c3_parse_error_policy env0 "gemini-1.5-flash" _ [] [] () "" "" "low"
      "\x7bz\x7d" rfl (fun _ => rfl) rfl).2 "\x7bz\x7d" rfl rfl⟩

/-- C6: if the model returns the valid JSON object
`\x7b"important_pages": ["p1","p2"]\x7d`, `detect_important_pages`
returns exactly the mapping with `total_tokens = 0` and
`parsed_response = ["p1","p2"]` (the result record has no other
fields). -/
theorem c6_wellformed_round_trip (env : Env) (name : String)
    (model : ModelBehavior)
    (profile_reference chapter_reference pages : List String)
    (client : Unit) (prompt instructions detail : String)
    (henv : get_gemini_model env = .ok name)
    (hmodel : ∀ cs, model cs = .ok "\x7b\"important_pages\": [\"p1\",\"p2\"]\x7d") :
    (detect_important_pages env model profile_reference chapter_reference pages client
        prompt instructions detail).1 = .ok ⟨0, .arr [.str "p1", .str "p2"]⟩ := by
  simp only [detect_important_pages, henv, hmodel]
  rfl

/-- Closed instance of C6. -/
theorem c6_wellformed_round_trip_witness :
    (detect_important_pages env0
        (fun _ => .ok "\x7b\"important_pages\": [\"p1\",\"p2\"]\x7d") [] [] [] ()
        "" "" "low").1 = .ok ⟨0, .arr [.str "p1", .str "p2"]⟩ :=
  c6_wellformed_round_trip env0 "gemini-1.5-flash" _ [] [] [] () "" "" "low"
    rfl (fun _ => rfl)

/-- C7: if the model returns the valid JSON object `\x7b\x7d` (target
key absent), both JSON-mode operations return an empty
`parsed_response`. -/
theorem c7_missing_key_default (env : Env) (name : String)
    (model : ModelBehavior)
    (profile_reference chapter_reference pages panels : List String)
    (client : Unit) (prompt instructions detail : String)
    (henv : get_gemini_model env = .ok name)
    (hmodel : ∀ cs, model cs = .ok "\x7b\x7d") :
    (detect_important_pages env model profile_reference chapter_reference pages client
        prompt instructions detail).1 = .ok ⟨0, .arr []⟩ ∧
    (get_important_panels env model profile_reference panels client
        prompt instructions detail).1 = .ok ⟨0, .arr []⟩ := by
  refine ⟨?_, ?_⟩ <;>
    simp only [detect_important_pages, get_important_panels, henv, hmodel] <;> rfl

/-- Closed instance of C7. -/
theorem c7_missing_key_default_witness :
    (detect_important_pages env0 (fun _ => .ok "\x7b\x7d") [] [] [] ()
        "" "" "low").1 = .ok ⟨0, .arr []⟩ ∧
    (get_important_panels env0 (fun _ => .ok "\x7b\x7d") [] [] ()
        "" "" "low").1 = .ok ⟨0, .arr []⟩ :=
  c7_missing_key_default env0 "gemini-1.5-flash" _ [] [] [] [] () "" "" "low"
    rfl (fun _ => rfl)

/-- C8: if the model returns
`noise \x7b"important_panels": ["a"]\x7d trailing` (invalid JSON as a
whole but containing an embedded brace-delimited JSON object),
`get_important_panels` extracts and parses the embedded object and
returns `parsed_response = ["a"]`. -/
theorem c8_recoverable_malformed_json (env : Env) (name : String)
    (model : ModelBehavior) (profile_reference panels : List String)
    (client : Unit) (prompt instructions detail : String)
    (henv : get_gemini_model env = .ok name)
    (hmodel : ∀ cs,
      model cs = .ok "noise \x7b\"important_panels\": [\"a\"]\x7d trailing") :
    (get_important_panels env model profile_reference panels client
        prompt instructions detail).1 = .ok ⟨0, .arr [.str "a"]⟩ := by
  simp only [get_important_panels, henv, hmodel]
  rfl

/-- Closed instance of C8. -/
theorem c8_recoverable_malformed_json_witness :
    (get_important_panels env0
        (fun _ => .ok "noise \x7b\"important_panels\": [\"a\"]\x7d trailing") [] [] ()
        "" "" "low").1 = .ok ⟨0, .arr [.str "a"]⟩ :=
  c8_recoverable_malformed_json env0 "gemini-1.5-flash" _ [] [] () "" "" "low"
    rfl (fun _ => rfl)

/-- C9 as stated is false: the fallback pattern `\x7b.*\x7d` is greedy,
so extraction runs from the first opening brace to the last closing
brace, not to the first brace's matching closing brace.  On
`x \x7b"important_pages": []\x7d y \x7b"b": 2\x7d` the first
brace-delimited substring `\x7b"important_pages": []\x7d` is valid JSON
(first conjunct), so the claim predicts a successful fallback parse —
but the code extracts through the trailing second object, the re-parse
fails, and `detect_important_pages` raises the decode error (second
conjunct). -/
theorem c9_counterexample :
    json_loads "\x7b\"important_pages\": []\x7d" =
      some (.obj [("important_pages", .arr [])]) ∧
    (detect_important_pages env0
        (fun _ => .ok "x \x7b\"important_pages\": []\x7d y \x7b\"b\": 2\x7d")
        [] [] [] () "" "" "low").1 = .error .jsonDecodeError :=
  ⟨rfl, rfl⟩

/-- C9 amended: when strict parsing fails, `detect_important_pages`
extracts the substring running from the first opening brace to the last
closing brace of the response text (the pattern is greedy) and
re-parses it; for every response text whose first-to-last-brace
substring is valid JSON, the fallback parse yields the value of that
substring, which then feeds the `important_pages` field extraction. -/
theorem c9_greedy_fallback_extraction (env : Env) (name : String)
    (model : ModelBehavior)
    (profile_reference chapter_reference pages : List String)
    (client : Unit) (prompt instructions detail t sub : String) (v : JValue)
    (henv : get_gemini_model env = .ok name)
    (hmodel : ∀ cs, model cs = .ok t)
    (hjson : json_loads t = none)
    (hsub : braceExtract t = some sub)
    (hv : json_loads sub = some v) :
    (detect_important_pages env model profile_reference chapter_reference pages client
        prompt instructions detail).1 =
      (match py_get_list v "important_pages" with
       | .ok pr => .ok ⟨0, pr⟩
       | .error e => .error e) := by
  simp only [detect_important_pages, henv, hmodel, hjson, hsub, hv]
  cases py_get_list v "important_pages" <;> rfl

/-- Closed instance of amended C9 on a text whose greedy
first-to-last-brace substring is the single embedded object. -/
theorem c9_greedy_fallback_extraction_witness :
    (detect_important_pages env0
        (fun _ => .ok "a \x7b\"important_pages\": [\"x\"]\x7d") [] [] [] ()
        "" "" "low").1 = .ok ⟨0, .arr [.str "x"]⟩ :=
  c9_greedy_fallback_extraction env0 "gemini-1.5-flash" _ [] [] [] ()
    "" "" "low" "a \x7b\"important_pages\": [\"x\"]\x7d"
    "\x7b\"important_pages\": [\"x\"]\x7d"
    (.obj [("important_pages", .arr [.str "x"])])
    rfl (fun _ => rfl) rfl rfl rfl

/-- C10 (implicit): for every model response text that parses as valid
JSON but is not a JSON object (array, string, number, boolean or null),
both `detect_important_pages` and `get_important_panels` raise an
`AttributeError` at the `.get` field-extraction step rather than
returning an empty `parsed_response` or entering the malformed-output
fallback path. -/
theorem c10_nonobject_json (env : Env) (name : String)
    (model : ModelBehavior)
    (profile_reference chapter_reference pages panels : List String)
    (client : Unit) (prompt instructions detail t : String) (v : JValue)
    (henv : get_gemini_model env = .ok name)
    (hmodel : ∀ cs, model cs = .ok t)
    (hjson : json_loads t = some v)
    (hv : v.isObj = false) :
    (detect_important_pages env model profile_reference chapter_reference pages client
        prompt instructions detail).1 = .error .attributeError ∧
    (get_important_panels env model profile_reference panels client
        prompt instructions detail).1 = .error .attributeError := by
  have hget : ∀ key, py_get_list v key = .error .attributeError := by
    intro key
    cases v <;> simp_all [py_get_list, JValue.isObj]
  refine ⟨?_, ?_⟩ <;>
    simp only [detect_important_pages, get_important_panels, henv, hmodel,
      hjson, hget]

/-- Closed instance of C10 on the JSON array `[]`. -/
theorem c10_nonobject_json_witness :
    (detect_important_pages env0 (fun _ => .ok "[]") [] [] [] ()
        "" "" "low").1 = .error .attributeError ∧
    (get_important_panels env0 (fun _ => .ok "[]") [] [] ()
        "" "" "low").1 = .error .attributeError :=
  c10_nonobject_json env0 "gemini-1.5-flash" _ [] [] [] [] () "" "" "low"
    "[]" (.arr []) rfl (fun _ => rfl) rfl rfl

